import Mathlib

/-!
# CarbonPilot — verification of the spec against the source

Shallow embedding of the CarbonPilot repository (`Agenticsystem/`): a
sequential two-stage LLM pipeline that classifies product carbon-footprint
line items into impact buckets, persists a business-requirements artifact,
and renders reports.  Pure data manipulation is translated from the Python
source; the parts executed by the generative model (the classification and
ranking rules stated in the agents' instruction strings) are modelled from
those instructions, as flagged in the doc comments.

Rationals stand in for Python floats: every numeric claim checked here is
far from any rounding boundary, so the exact-rational model agrees with
IEEE-754 double arithmetic on all inputs considered.
-/

namespace CarbonPilot

/-- Left-brace character (code point 123), named to keep brace characters
out of literals. -/
def lbrace : Char := Char.ofNat 123

/-- Right-brace character (code point 125). -/
def rbrace : Char := Char.ofNat 125

/-! ## Data model (run_analysis.py docstring, lines 26–42)

A product record of the input payload.  Note that the input format has
no percentage field: `percentage_of_total` appears only downstream. -/

/-- One product of the input payload `carbon_data["products"]`
(run_analysis.py lines 28–36): name, material, weight, emission factor and
the precomputed total emissions.  There is no percentage field. -/
structure LineItem where
  product_name : String
  material_type : String
  weight_kg : ℚ
  emission_factor : ℚ
  total_emissions : ℚ
deriving DecidableEq, Repr

/-- The `carbon_data["summary"]` block (run_analysis.py lines 37–41). -/
structure Summary where
  total_emissions : ℚ
  total_products : ℕ
  average_emissions_per_product : ℚ
deriving DecidableEq, Repr

/-! ## Impact buckets (analyzer instruction, analyzer_agent/agent.py 31–35) -/

/-- Impact bucket labels from the analyzer instruction's
IMPACT CATEGORIZATION rule. -/
inductive ImpactBucket where
  | High
  | Medium
  | Low
deriving DecidableEq, Repr

/-- Modelled from the spec: the impact-classification rule executed by the
generative model per the analyzer instruction (analyzer_agent/agent.py
lines 31–35): HIGH for percentage > 40, MEDIUM for 15–40, LOW for < 15.
The classification itself runs inside the LLM, so only the rule text is in
the source; this function is that rule. -/
def impactBucket (percentage_of_total : ℚ) : ImpactBucket :=
  if 40 < percentage_of_total then ImpactBucket.High
  else if 15 ≤ percentage_of_total then ImpactBucket.Medium
  else ImpactBucket.Low

/-! ## Prompt construction arithmetic (run_analysis.py lines 61–85) -/

/-- Round a rational to two decimal places, modelling Python's `:.2f`
format applied to values away from half-way ties (all values checked here
are at distance ≥ 0.03 from a tie, far above double-precision error). -/
def round2 (q : ℚ) : ℚ := (round (q * 100) : ℚ) / 100

/-- The per-product numbers interpolated into the analyzer prompt
(run_analysis.py lines 67–75): weight, emission factor and total emissions
are spliced in directly from the input record, while the percentage line
is computed there as `total_emissions / summary_total * 100` formatted
with `:.2f`. -/
structure ProductPromptData where
  weight : ℚ
  emissionFactor : ℚ
  totalEmissions : ℚ
  percentageOfTotal : ℚ
deriving DecidableEq, Repr

/-- Embeds the prompt-building loop body (run_analysis.py lines 67–75). -/
def productPromptData (p : LineItem) (summaryTotal : ℚ) : ProductPromptData :=
  { weight := p.weight_kg
    emissionFactor := p.emission_factor
    totalEmissions := p.total_emissions
    percentageOfTotal := round2 (p.total_emissions / summaryTotal * 100) }

/-! ## JSON extraction (run_analysis.py lines 135–151) -/

/-- Python `str.find(c)`: index of the first occurrence, `none` for -1. -/
def strFind (c : Char) (s : List Char) : Option ℕ :=
  s.findIdx? (fun x => x = c)

/-- Python `str.rfind(c)`: index of the last occurrence, `none` for -1. -/
def strRfind (c : Char) (s : List Char) : Option ℕ :=
  match (s.reverse).findIdx? (fun x => x = c) with
  | none => none
  | some k => some (s.length - 1 - k)

/-- The JSON-extraction step of `run_carbon_analysis`
(run_analysis.py lines 135–145):
`start_idx = text.find('\x7b')`, `end_idx = text.rfind('\x7d') + 1`;
if either character is missing (`start_idx == -1 or end_idx == 0`) the
routine reports "no JSON found" (returns `None`); otherwise it returns the
slice `text[start_idx:end_idx]`.  Python slices are `drop` then `take`,
empty when the bounds cross. -/
def extract_json (s : List Char) : Option (List Char) :=
  match strFind lbrace s, strRfind rbrace s with
  | some i, some j => some ((s.drop i).take (j + 1 - i))
  | _, _ => none

/-! ## Requirements persistence (loop_agent/agent.py lines 5–11)

The module-level load: open `business_requirements.json`, read its text;
on `FileNotFoundError` substitute the sentinel string.  The file system is
modelled as `Option String` (`none` = file absent). -/

/-- Embeds loop_agent/agent.py lines 5–11: the `try/except FileNotFoundError`
around reading `business_requirements.json`.  `none` models the absent
file; the `except` branch yields the sentinel text. -/
def business_requirements_of (file : Option String) : String :=
  match file with
  | some contents => contents
  | none => "No business requirements found."

/-- Modelled from the spec: the `BusinessRequirementsArtifact` fields named
in §6 (objectives, success criteria, stakeholders, constraints).  No code
under src/ constructs or saves this artifact; only the reader above exists. -/
structure BusinessRequirementsArtifact where
  objectives : List String
  success_criteria : List String
  stakeholders : List String
  constraints : List String
deriving DecidableEq, Repr

/-- Modelled from the spec: §4.3's `save(artifact)` — src/ contains no save
code (the spec's contract is "overwrites a single named resource
atomically"), so the write is one atomic transition replacing the whole
persisted state. -/
def Requirements.save (a : BusinessRequirementsArtifact)
    (_state : Option BusinessRequirementsArtifact) :
    Option BusinessRequirementsArtifact :=
  some a

/-- Modelled from the spec: §4.3's `load()` — returns the last saved
artifact, or the well-defined absent sentinel (`none`) if none exists. -/
def Requirements.load (state : Option BusinessRequirementsArtifact) :
    Option BusinessRequirementsArtifact :=
  state

/-! ## Module import graph (the import statements of src/Agenticsystem)

The only read of `business_requirements.json` is the module-level open in
loop_agent/agent.py lines 5–11, executed when that module is imported.
Which modules a pipeline run loads is therefore decisive: it is fixed by
the repository's import statements. -/

/-- The Python modules of src/Agenticsystem. -/
inductive Module where
  | run_analysis
  | pilot_agent
  | analyzer_agent_module
  | optimizer_agent_module
  | loop_agent_module
  | visualizer
deriving DecidableEq, Repr

/-- The repository-internal import statements of each module:
run_analysis.py lines 16–17 import pilot.agent and visualizer;
pilot/agent.py lines 10–11 import the analyzer and optimizer subagent
modules; no module of the repository imports loop_agent; the subagent
modules and visualizer import only external libraries. -/
def moduleImports : Module → List Module
  | Module.run_analysis => [Module.pilot_agent, Module.visualizer]
  | Module.pilot_agent =>
      [Module.analyzer_agent_module, Module.optimizer_agent_module]
  | _ => []

/-- Modules loaded, transitively, when `m` is imported: a fuel-bounded
walk of `moduleImports` (the graph is two levels deep, so fuel 2 reaches
everything from run_analysis). -/
def loadedBy : ℕ → Module → List Module
  | 0, m => [m]
  | n + 1, m => m :: (moduleImports m).flatMap (loadedBy n)

/-- The modules loaded by one pipeline run, i.e. by executing
run_analysis.py. -/
def pipelineRunModules : List Module := loadedBy 2 Module.run_analysis

/-- Whether importing a module executes a read of
`business_requirements.json`: only loop_agent/agent.py lines 5–11 perform
such a module-level read. -/
def readsRequirementsOnImport : Module → Bool
  | Module.loop_agent_module => true
  | _ => false

/-- How many reads of the requirements file one pipeline run performs:
one per loaded module whose import reads it. -/
def pipelineRunRequirementReads : ℕ :=
  (pipelineRunModules.filter readsRequirementsOnImport).length

/-! ## Trace model for the persisted file ("last write wins")

Events on the shared file: external writes, and pipeline runs — which,
per the import graph above, load neither loop_agent nor any other reader
of the file, so they neither read nor write it. -/

/-- An event on the shared requirements file: an external write of its
contents, or a pipeline run (which does not touch the file: it does not
load loop_agent). -/
inductive ReqEvent where
  | write (contents : String)
  | run
deriving DecidableEq, Repr

/-- File contents after a history of events, `none` when never written:
writes replace the contents, runs leave them unchanged. -/
def fileState (history : List ReqEvent) : Option String :=
  history.foldl
    (fun s e => match e with
      | ReqEvent.write c => some c
      | ReqEvent.run => s)
    none

/-- Contents of the last write in a history, `none` when there is none:
the first write encountered scanning the history backwards. -/
def lastWrite (history : List ReqEvent) : Option String :=
  (history.reverse.filterMap
    (fun e => match e with
      | ReqEvent.write c => some c
      | ReqEvent.run => none)).head?

/-- What an import of the loop_agent module executed after `history`
observes: the module-level read of loop_agent/agent.py lines 5–11
applied to the file contents as they stand at import time.  This is
where the file is actually read — not during pipeline runs. -/
def importObservation (history : List ReqEvent) : String :=
  business_requirements_of (fileState history)

/-! ## Pipeline structure (pilot/agent.py, subagent definitions)

Each agent is an `LlmAgent(...)` call whose behaviour lives in its
instruction string; the instruction is modelled as a function of the
loaded business-requirements text, since f-string interpolation of
`business_requirements` is the only channel through which an agent's prompt
can depend on the persisted file.  The `consumes` field records which data
the instruction directs the model to use, one entry per cited directive. -/

/-- The data sources an agent's instruction draws on. -/
inductive DataSource where
  | inputPayload
  | analyzerHighImpact
  | analyzerMediumImpact
  | analyzerLowImpact
  | businessRequirementsFile
deriving DecidableEq, Repr

/-- An `LlmAgent(...)` construction: name, model, and the instruction as a
function of the loaded business-requirements text. -/
structure LlmAgentSpec where
  name : String
  model : String
  instruction : String → String
  consumes : List DataSource

/-- analyzer_agent (analyzer_agent/agent.py lines 3–125): a plain string
literal instruction (no interpolation), so constant in the requirements
text; its task is to categorize the input payload.  The instruction text is
abridged to the categorization rule the claims cite. -/
def analyzer_agent : LlmAgentSpec :=
  { name := "analyzer_agent"
    model := "gemini-2.0-flash"
    instruction := fun _ =>
      "IMPACT CATEGORIZATION: HIGH IMPACT >40% of total emissions; " ++
      "MEDIUM IMPACT 15-40% of total emissions; LOW IMPACT <15% of total emissions."
    consumes := [DataSource.inputPayload] }

/-- optimizer_agent (optimizer_agent/agent.py lines 6–96): a plain string
literal instruction (no interpolation, no reference to the requirements
file), so constant in the requirements text; line 15 directs it to use
ONLY the high_impact and medium_impact categories and ignore low_impact.
The instruction text is abridged to that directive. -/
def optimizer_agent : LlmAgentSpec :=
  { name := "optimizer_agent"
    model := "gemini-2.5-pro"
    instruction := fun _ =>
      "IMPORTANT: You ONLY focus on the high_impact and medium_impact " ++
      "categories provided. Ignore low_impact items for optimization."
    consumes := [DataSource.analyzerHighImpact, DataSource.analyzerMediumImpact] }

/-- loop_agent (loop_agent/agent.py lines 16–120): its instruction is an
f-string interpolating the loaded `business_requirements` text after the
CURRENT BUSINESS REQUIREMENTS heading (line 32); line 29 directs it to use
only high_impact and medium_impact.  The surrounding prose is abridged. -/
def loop_agent : LlmAgentSpec :=
  { name := "loop_agent"
    model := "gemini-2.0-flash"
    instruction := fun business_requirements =>
      "IMPORTANT: You ONLY focus on the high_impact and medium_impact " ++
      "categories provided. Ignore low_impact items for optimization.\n" ++
      "CURRENT BUSINESS REQUIREMENTS:\n" ++ business_requirements ++ "\nWORKFLOW:"
    consumes := [DataSource.analyzerHighImpact, DataSource.analyzerMediumImpact,
                 DataSource.businessRequirementsFile] }

/-- The root sequential pipeline (pilot/agent.py lines 15–22):
`SequentialAgent(name="pilot", sub_agents=[analyzer_agent, optimizer_agent])`.
loop_agent is not a member. -/
def root_agent_sub_agents : List LlmAgentSpec :=
  [analyzer_agent, optimizer_agent]

/-! ## Post-response processing (run_analysis.py lines 129–191)

After the agent answers, `run_carbon_analysis` extracts the JSON
substring, parses it (`json.loads`, modelled as an abstract parser), and
only on success writes the two report files (lines 160, 164) — every
failure branch prints the raw response and returns `None` before any file
is written.  JSON decoding itself is external (`json.loads`), so it is a
parameter. -/

/-- Outcome of the post-response phase: `failure` carries the raw response
text surfaced for diagnosis (printed next to the error, lines 142, 150)
before returning `None`; `success` carries the parsed results and the
report files written (lines 160 and 164). -/
inductive RunResult (J : Type) where
  | failure (rawResponse : List Char)
  | success (results : J) (filesWritten : List String)
deriving DecidableEq, Repr

/-- Files written by a run outcome: none on failure. -/
def RunResult.files {J : Type} : RunResult J → List String
  | RunResult.failure _ => []
  | RunResult.success _ fs => fs

/-- Embeds run_analysis.py lines 135–164: find the JSON substring
(lines 137–145), parse it (line 146; `parseJson` stands for `json.loads`,
`none` for `JSONDecodeError`), and on success write the dashboard and the
report (lines 160, 164).  Both failure branches print the raw
`analysis_text` and return `None` without writing anything. -/
def processAgentResponse {J : Type} (parseJson : List Char → Option J)
    (analysis_text : List Char) : RunResult J :=
  match extract_json analysis_text with
  | none => RunResult.failure analysis_text
  | some json_str =>
    match parseJson json_str with
    | none => RunResult.failure analysis_text
    | some results =>
      RunResult.success results
        ["carbon_analysis_dashboard.html", "carbon_analysis_report.html"]

/-! ## Analyzer output and the visualizer (visualizer.py, test_analyzer.py)

The analyzer's output carries, per product, the fields the visualizer
reads: `product_name`, `material_type`, `total_emissions`,
`percentage_of_total`, `emission_factor` (test_analyzer.py lines 55–84,
visualizer.py lines 64–97 and 190–205). -/

/-- A product entry of the analyzer output's `impact_categories` buckets
(test_analyzer.py lines 55–84). -/
structure AnalyzedProduct where
  product_name : String
  material_type : String
  total_emissions : ℚ
  percentage_of_total : ℚ
  emission_factor : ℚ
deriving DecidableEq, Repr

/-- The `impact_categories` object of the analyzer output. -/
structure ImpactCategories where
  high_impact : List AnalyzedProduct
  medium_impact : List AnalyzedProduct
  low_impact : List AnalyzedProduct
deriving DecidableEq, Repr

/-- Modelled from the spec: the partition of analyzed products into the
three buckets, performed by the generative model under the analyzer
instruction's rule (analyzer_agent/agent.py lines 31–35) — each product
goes to the bucket of its `percentage_of_total`. -/
def categorize : List AnalyzedProduct → ImpactCategories
  | [] => { high_impact := [], medium_impact := [], low_impact := [] }
  | p :: ps =>
    let rest := categorize ps
    match impactBucket p.percentage_of_total with
    | ImpactBucket.High => { rest with high_impact := p :: rest.high_impact }
    | ImpactBucket.Medium => { rest with medium_impact := p :: rest.medium_impact }
    | ImpactBucket.Low => { rest with low_impact := p :: rest.low_impact }

/-- Embeds visualizer.py lines 190–194 (`create_detailed_report`): the
report's product list is exactly
`high_impact + medium_impact + low_impact`. -/
def all_products (c : ImpactCategories) : List AnalyzedProduct :=
  c.high_impact ++ c.medium_impact ++ c.low_impact

/-- Embeds visualizer.py lines 93–97 (`create_dashboard`): the pie-chart
values are the three bucket lengths, in High, Medium, Low order. -/
def dashboardPieCounts (c : ImpactCategories) : List ℕ :=
  [c.high_impact.length, c.medium_impact.length, c.low_impact.length]

/-- Embeds visualizer.py lines 60–77 (`create_dashboard`): the bar chart
appends the products of the three buckets in High, Medium, Low order. -/
def dashboardBarProducts (c : ImpactCategories) : List String :=
  (c.high_impact ++ c.medium_impact ++ c.low_impact).map
    (fun p => p.product_name)

/-! ## Ranking (spec §4.2) -/

/-- Modelled from the spec: §4.2's ranked-by-emissions ordering produced in
the analyzer output (`top_emitters_ranking`) — descending by
`total_emissions`, stable on ties by original input order.  The ranking is
produced by the generative model; this is stable insertion sort. -/
def insertByEmissions (x : LineItem) : List LineItem → List LineItem
  | [] => [x]
  | y :: ys =>
    if y.total_emissions < x.total_emissions then x :: y :: ys
    else y :: insertByEmissions x ys

/-- Modelled from the spec: stable descending sort by `total_emissions`
(see `insertByEmissions`). -/
def rankByEmissions : List LineItem → List LineItem
  | [] => []
  | x :: xs => insertByEmissions x (rankByEmissions xs)

/-! ## Sample data (run_analysis.py lines 199–228; identical in
test_analyzer.py lines 20–49) -/

/-- Steel Frame (run_analysis.py lines 201–207). -/
def steelFrame : LineItem :=
  { product_name := "Steel Frame", material_type := "Steel",
    weight_kg := 3000, emission_factor := 37/20, total_emissions := 5550 }

/-- Plastic Case (run_analysis.py lines 208–214). -/
def plasticCase : LineItem :=
  { product_name := "Plastic Case", material_type := "Plastic",
    weight_kg := 250, emission_factor := 6, total_emissions := 1500 }

/-- Cotton T-Shirt (run_analysis.py lines 215–221). -/
def cottonTShirt : LineItem :=
  { product_name := "Cotton T-Shirt", material_type := "Cotton",
    weight_kg := 200, emission_factor := 53/10, total_emissions := 1060 }

/-- The sample products list (run_analysis.py lines 200–222). -/
def sampleProducts : List LineItem := [steelFrame, plasticCase, cottonTShirt]

/-- The sample summary (run_analysis.py lines 223–227). -/
def sampleSummary : Summary :=
  { total_emissions := 8110, total_products := 3,
    average_emissions_per_product := 270333/100 }

/-- Every numeric value appearing in the sample input payload
(run_analysis.py lines 199–228): product fields and summary fields. -/
def sampleInputNumbers : List ℚ :=
  [3000, 37/20, 5550, 250, 6, 1500, 200, 53/10, 1060, 8110, 3, 270333/100]

/-! ## Helper lemmas -/

/-- `strFind` succeeds exactly on members. -/
theorem strFind_isSome_iff_mem (c : Char) (s : List Char) :
    (strFind c s).isSome ↔ c ∈ s := by
  rw [strFind, List.findIdx?_isSome, List.any_eq_true]
  constructor
  · rintro ⟨x, hx, hxc⟩
    simp only [decide_eq_true_eq] at hxc
    exact hxc ▸ hx
  · intro h
    exact ⟨c, h, by simp⟩

/-- `strRfind` succeeds exactly on members. -/
theorem strRfind_isSome_iff_mem (c : Char) (s : List Char) :
    (strRfind c s).isSome ↔ c ∈ s := by
  rw [strRfind]
  rcases h : (s.reverse).findIdx? (fun x => x = c) with _ | k
  · rw [List.findIdx?_eq_none_iff] at h
    simp only [Option.isSome_none, Bool.false_eq_true, false_iff]
    intro hmem
    have hc := h c (by simpa using hmem)
    simp at hc
  · have hs : (s.reverse.findIdx? (fun x => x = c)).isSome = true := by
      rw [h]; rfl
    rw [List.findIdx?_isSome, List.any_eq_true] at hs
    simp only [Option.isSome_some, true_iff]
    obtain ⟨x, hx, hxc⟩ := hs
    simp only [decide_eq_true_eq] at hxc
    exact hxc ▸ (by simpa using hx)

/-- `strFind` fails exactly on non-members. -/
theorem strFind_eq_none_iff (c : Char) (s : List Char) :
    strFind c s = none ↔ c ∉ s := by
  rw [← strFind_isSome_iff_mem, Option.not_isSome_iff_eq_none]

/-- `strRfind` fails exactly on non-members. -/
theorem strRfind_eq_none_iff (c : Char) (s : List Char) :
    strRfind c s = none ↔ c ∉ s := by
  rw [← strRfind_isSome_iff_mem, Option.not_isSome_iff_eq_none]

/-! ## Claims -/

/-- C1: for every line item, the analyzer's rule places a
`percentage_of_total` above 40 in the High bucket, between 15 and 40
inclusive in the Medium bucket, and below 15 in the Low bucket;
the thresholds 40 and 15 are the fixed constants of `impactBucket`. -/
theorem impactBucket_thresholds (p : ℚ) :
    (40 < p → impactBucket p = ImpactBucket.High) ∧
    (15 ≤ p → p ≤ 40 → impactBucket p = ImpactBucket.Medium) ∧
    (p < 15 → impactBucket p = ImpactBucket.Low) := by
  refine ⟨fun h => ?_, fun h1 h2 => ?_, fun h => ?_⟩
  · simp [impactBucket, h]
  · have hn : ¬ 40 < p := not_lt.mpr h2
    simp [impactBucket, hn, h1]
  · have h1 : ¬ 40 < p := by linarith
    have h2 : ¬ 15 ≤ p := not_le.mpr h
    simp [impactBucket, h1, h2]

/-- Witness for C1: the rule evaluated at 50, 20 and 10. -/
theorem impactBucket_thresholds_witness :
    impactBucket 50 = ImpactBucket.High ∧
    impactBucket 20 = ImpactBucket.Medium ∧
    impactBucket 10 = ImpactBucket.Low :=
  ⟨(impactBucket_thresholds 50).1 (by norm_num),
   (impactBucket_thresholds 20).2.1 (by norm_num) (by norm_num),
   (impactBucket_thresholds 10).2.2 (by norm_num)⟩

/-- C2 counterexample: the text consisting of a single left brace contains
a left brace, yet `extract_json` reports "no JSON found" (`none`) instead
of returning a substring — the claim's first half fails when no right
brace is present. -/
theorem extract_json_lbrace_only_not_found :
    lbrace ∈ ("\x7b".data) ∧ extract_json ("\x7b".data) = none := by
  constructor
  · decide
  · decide

/-- C2 (amended): when the text contains at least one left brace AND at
least one right brace, `extract_json` returns the slice from the first
left brace through the last right brace inclusive (empty when the last
right brace precedes the first left brace); when either brace is missing,
it returns the defined "not found" result (`none`) rather than raising. -/
theorem extract_json_spec (s : List Char) :
    (lbrace ∈ s → rbrace ∈ s →
      ∃ i j, strFind lbrace s = some i ∧ strRfind rbrace s = some j ∧
        extract_json s = some ((s.drop i).take (j + 1 - i))) ∧
    (lbrace ∉ s → extract_json s = none) ∧
    (rbrace ∉ s → extract_json s = none) := by
  refine ⟨fun h1 h2 => ?_, fun h => ?_, fun h => ?_⟩
  · obtain ⟨i, hi⟩ := Option.isSome_iff_exists.mp
      ((strFind_isSome_iff_mem lbrace s).mpr h1)
    obtain ⟨j, hj⟩ := Option.isSome_iff_exists.mp
      ((strRfind_isSome_iff_mem rbrace s).mpr h2)
    exact ⟨i, j, hi, hj, by rw [extract_json, hi, hj]⟩
  · rw [extract_json, (strFind_eq_none_iff lbrace s).mpr h]
  · rw [extract_json, (strRfind_eq_none_iff rbrace s).mpr h]
    rcases strFind lbrace s with _ | i <;> rfl

/-- Witness for C2 (amended): evaluated on `noise\x7ba\x7dmore` (both
braces present, slice returned) — hypotheses discharged concretely. -/
theorem extract_json_spec_witness :
    ∃ i j, strFind lbrace ("noise\x7ba\x7dmore".data) = some i ∧
      strRfind rbrace ("noise\x7ba\x7dmore".data) = some j ∧
      extract_json ("noise\x7ba\x7dmore".data) =
        some ((("noise\x7ba\x7dmore".data).drop i).take (j + 1 - i)) :=
  (extract_json_spec ("noise\x7ba\x7dmore".data)).1 (by decide) (by decide)

/-- C3: when the persisted `business_requirements.json` file is absent
(`none`), the module-level load of loop_agent yields the documented
"no requirements" placeholder; the read is a total function, so absence is
recovered locally and never fatal. -/
theorem business_requirements_absent_sentinel :
    business_requirements_of none = "No business requirements found." := rfl

/-- C4: `save` followed immediately by `load` returns the saved artifact
(round-trip law), and `save` replaces the single persisted resource in one
transition whose result is independent of the prior state (full atomic
overwrite). -/
theorem requirements_save_load_round_trip (a : BusinessRequirementsArtifact)
    (s s' : Option BusinessRequirementsArtifact) :
    Requirements.load (Requirements.save a s) = some a ∧
    Requirements.save a s = Requirements.save a s' :=
  ⟨rfl, rfl⟩

/-- The right fold that replays a backwards history keeps the first write
it meets: it equals the head of the write contents in that order. -/
theorem foldr_firstWrite (r : List ReqEvent) :
    r.foldr
      (fun e s => match e with
        | ReqEvent.write c => some c
        | ReqEvent.run => s)
      none =
    (r.filterMap
      (fun e => match e with
        | ReqEvent.write c => some c
        | ReqEvent.run => none)).head? := by
  induction r with
  | nil => rfl
  | cons e rest ih => cases e <;> simp [List.filterMap_cons, ih]

/-- The file contents after a history are exactly the last write's. -/
theorem fileState_eq_lastWrite (history : List ReqEvent) :
    fileState history = lastWrite history := by
  have h := List.foldl_reverse (l := history.reverse)
    (f := fun s e => match e with
      | ReqEvent.write c => some c
      | ReqEvent.run => s)
    (b := (none : Option String))
  rw [List.reverse_reverse] at h
  rw [fileState, h, lastWrite, ← foldr_firstWrite]

/-- C8 counterexample: a pipeline run loads run_analysis, pilot.agent,
the analyzer and optimizer subagent modules and visualizer — loop_agent is
not among them (no import statement in the repository reaches it), so the
run performs zero reads of the requirements file: the file is not re-read
on every pipeline run. -/
theorem pipeline_run_never_reads_requirements :
    Module.loop_agent_module ∉ pipelineRunModules ∧
    pipelineRunRequirementReads = 0 := by
  constructor
  · decide
  · decide

/-- C8 (amended): a pipeline run loads exactly run_analysis, pilot.agent,
the analyzer and optimizer subagent modules and visualizer — not
loop_agent — and so performs no read of the requirements file; the read
happens instead when the loop_agent module itself is imported, and such
an import, executed after any history of writes and runs, observes the
contents of the last write before it (or the absent-file sentinel when
nothing was ever written): last write wins at module-load time. -/
theorem requirements_last_write_wins :
    pipelineRunModules =
      [Module.run_analysis, Module.pilot_agent, Module.analyzer_agent_module,
       Module.optimizer_agent_module, Module.visualizer] ∧
    pipelineRunRequirementReads = 0 ∧
    ∀ history : List ReqEvent,
      importObservation history = business_requirements_of (lastWrite history) := by
  refine ⟨by decide, by decide, fun history => ?_⟩
  rw [importObservation, fileState_eq_lastWrite]

/-- C5 counterexample: the stage that runs second in the pipeline is
optimizer_agent, whose instruction neither lists the persisted
requirements among its data sources nor changes when the loaded
requirements text changes — the second stage does not consume the
BusinessRequirementsArtifact. -/
theorem optimizer_stage_ignores_requirements :
    root_agent_sub_agents.get? 1 = some optimizer_agent ∧
    DataSource.businessRequirementsFile ∉ optimizer_agent.consumes ∧
    optimizer_agent.instruction ("objectives: cut emissions 20 percent") =
      optimizer_agent.instruction ("No business requirements found.") :=
  ⟨rfl, by decide, rfl⟩

/-- C5 (amended): the second stage of the pipeline is optimizer_agent,
which consumes the Analyzer's High and Medium buckets only (neither the
Low bucket nor the persisted requirements); the persisted
BusinessRequirementsArtifact is interpolated only into loop_agent's
instruction, and loop_agent is not among the pipeline's sub-agents. -/
theorem pipeline_second_stage_inputs :
    root_agent_sub_agents.map (fun a => a.name) =
      ["analyzer_agent", "optimizer_agent"] ∧
    root_agent_sub_agents.get? 1 = some optimizer_agent ∧
    DataSource.analyzerHighImpact ∈ optimizer_agent.consumes ∧
    DataSource.analyzerMediumImpact ∈ optimizer_agent.consumes ∧
    DataSource.analyzerLowImpact ∉ optimizer_agent.consumes ∧
    DataSource.businessRequirementsFile ∉ optimizer_agent.consumes ∧
    (∀ r : String, optimizer_agent.instruction r =
      optimizer_agent.instruction ("")) ∧
    DataSource.businessRequirementsFile ∈ loop_agent.consumes ∧
    loop_agent.instruction ("A") ≠ loop_agent.instruction ("B") := by
  refine ⟨rfl, rfl, by decide, by decide, by decide, by decide,
    fun r => rfl, by decide, ?_⟩
  intro hcontra
  have hdata := congrArg String.data hcontra
  simp [loop_agent] at hdata

/-- C6 counterexample: for the Steel Frame sample item the orchestration
layer hands the analyzer the percentage 68.43, a number that is computed
(5550 / 8110 × 100 rounded to two decimals) and appears nowhere among the
numeric values of the input payload — the layer does perform arithmetic. -/
theorem prompt_percentage_not_an_input :
    (productPromptData steelFrame sampleSummary.total_emissions).percentageOfTotal
      = 6843 / 100 ∧
    ((6843 : ℚ) / 100) ∉ sampleInputNumbers := by
  constructor
  · norm_num [productPromptData, round2, steelFrame, sampleSummary, round_eq]
  · norm_num [sampleInputNumbers]

/-- C6 (amended): the orchestration layer passes `total_emissions`,
`weight_kg` and `emission_factor` to the agents exactly as provided in the
input, but it computes `percentage_of_total` itself, as
`total_emissions / summary_total × 100` rounded to two decimals —
percentage is not an input field and is the one number this layer derives. -/
theorem prompt_numbers_provenance (p : LineItem) (total : ℚ) :
    (productPromptData p total).totalEmissions = p.total_emissions ∧
    (productPromptData p total).weight = p.weight_kg ∧
    (productPromptData p total).emissionFactor = p.emission_factor ∧
    (productPromptData p total).percentageOfTotal =
      round2 (p.total_emissions / total * 100) :=
  ⟨rfl, rfl, rfl, rfl⟩

/-- C7 counterexample: the percentage presented to the analyzer for the
Steel Frame sample (total_emissions 5550 of 8110) is 68.43, not the 68.44
of the claim: 5550 / 8110 × 100 = 68.4340…, which formats to 68.43. -/
theorem sample_steel_percentage_not_68_44 :
    (productPromptData steelFrame sampleSummary.total_emissions).percentageOfTotal
      = 6843 / 100 ∧
    ((6843 : ℚ) / 100) ≠ 6844 / 100 := by
  constructor
  · norm_num [productPromptData, round2, steelFrame, sampleSummary, round_eq]
  · norm_num

/-- C7 (amended): for the sample input (emissions 5550, 1500, 1060;
summary total 8110) the percentages presented to the analyzer are 68.43,
18.50 and 13.07, their buckets are High, Medium and Low, and the ranking
descending by emissions is Steel Frame, Plastic Case, Cotton T-Shirt. -/
theorem sample_end_to_end :
    sampleProducts.map
      (fun p => (productPromptData p sampleSummary.total_emissions).percentageOfTotal)
      = [6843 / 100, 37 / 2, 1307 / 100] ∧
    sampleProducts.map
      (fun p => impactBucket
        (productPromptData p sampleSummary.total_emissions).percentageOfTotal)
      = [ImpactBucket.High, ImpactBucket.Medium, ImpactBucket.Low] ∧
    (rankByEmissions sampleProducts).map (fun p => p.product_name)
      = ["Steel Frame", "Plastic Case", "Cotton T-Shirt"] := by
  refine ⟨?_, ?_, ?_⟩
  · simp only [sampleProducts, List.map_cons, List.map_nil]
    norm_num [productPromptData, round2, round_eq,
      steelFrame, plasticCase, cottonTShirt, sampleSummary]
  · simp only [sampleProducts, List.map_cons, List.map_nil]
    norm_num [productPromptData, round2, round_eq, impactBucket,
      steelFrame, plasticCase, cottonTShirt, sampleSummary]
  · norm_num [rankByEmissions, sampleProducts, insertByEmissions,
      steelFrame, plasticCase, cottonTShirt]

/-- C9: whenever the agent's response text cannot be parsed as JSON —
either no JSON substring is found or the extracted substring fails to
decode — the run fails: the outcome is the failure result carrying the raw
offending text for diagnosis, and the list of report files written is
empty (no partial results persisted). -/
theorem unparsable_response_fails_run {J : Type}
    (parseJson : List Char → Option J) (text : List Char)
    (h : extract_json text = none ∨
      ∃ js, extract_json text = some js ∧ parseJson js = none) :
    processAgentResponse parseJson text = RunResult.failure text ∧
    (processAgentResponse parseJson text).files = [] := by
  have hfail : processAgentResponse parseJson text = RunResult.failure text := by
    rcases h with h | ⟨js, hjs, hp⟩
    · simp only [processAgentResponse, h]
    · simp only [processAgentResponse, hjs, hp]
  exact ⟨hfail, by rw [hfail]; rfl⟩

/-- Witness for C9: a parser that rejects everything, applied to a
response holding a JSON-looking substring — the run fails with the raw
text and writes no files. -/
theorem unparsable_response_fails_run_witness :
    processAgentResponse (fun _ => (none : Option Unit)) ("x\x7ba\x7dy".data)
      = RunResult.failure ("x\x7ba\x7dy".data) ∧
    (processAgentResponse (fun _ => (none : Option Unit)) ("x\x7ba\x7dy".data)).files
      = [] :=
  unparsable_response_fails_run (fun _ => (none : Option Unit)) ("x\x7ba\x7dy".data)
    (Or.inr ⟨"\x7ba\x7d".data, by decide, rfl⟩)

/-- C10: the classification rule places every analyzed product in exactly
one bucket — the three bucket lengths sum to the input length, the
dashboard pie counts sum to the input length, the report's product list
(the concatenation of the three buckets) is a permutation of the input
(no item dropped, none duplicated), and the dashboard bar chart reads the
same concatenation. -/
theorem buckets_partition_input (items : List AnalyzedProduct) :
    (categorize items).high_impact.length +
      (categorize items).medium_impact.length +
      (categorize items).low_impact.length = items.length ∧
    (dashboardPieCounts (categorize items)).sum = items.length ∧
    List.Perm (all_products (categorize items)) items ∧
    dashboardBarProducts (categorize items) =
      (all_products (categorize items)).map (fun p => p.product_name) := by
  have hperm : ∀ l : List AnalyzedProduct,
      List.Perm (all_products (categorize l)) l := by
    intro l
    induction l with
    | nil => simp [categorize, all_products]
    | cons p ps ih =>
      simp only [categorize]
      cases impactBucket p.percentage_of_total with
      | High =>
        simpa [all_products] using ih.cons p
      | Medium =>
        simp only [all_products] at ih ⊢
        have ih' : List.Perm ((categorize ps).high_impact ++
            ((categorize ps).medium_impact ++ (categorize ps).low_impact)) ps := by
          simpa [List.append_assoc] using ih
        refine List.Perm.trans ?_ (ih'.cons p)
        simp [List.append_assoc]
      | Low =>
        simp only [all_products] at ih ⊢
        have ih' : List.Perm (((categorize ps).high_impact ++
            (categorize ps).medium_impact) ++ (categorize ps).low_impact) ps := by
          simpa [List.append_assoc] using ih
        have hmid := @List.perm_middle AnalyzedProduct p
          ((categorize ps).high_impact ++ (categorize ps).medium_impact)
          ((categorize ps).low_impact)
        refine List.Perm.trans ?_ (ih'.cons p)
        simpa [List.append_assoc] using hmid
  have hlen := (hperm items).length_eq
  simp only [all_products, List.length_append] at hlen
  refine ⟨by omega, ?_, hperm items, rfl⟩
  simp only [dashboardPieCounts, List.sum_cons, List.sum_nil]
  omega

end CarbonPilot
